import Mathlib

/-!
Verification development for the `arb` repository: a shallow embedding of
the arbitrage engine (`backend/api.py`, `calculate_arbitrage_logic`), the
market-pair resolver (`backend/tracker/market_generator.py`), the
reference-price fetcher (`backend/services/price_fetcher.py`) and the
Polymarket stream state machine (`backend/websocket/polymarket_stream.py`),
together with theorems settling the spec's testable properties.

Conventions: Python floats are modelled as rationals (`ℚ`), Python ints as
`ℤ`, dicts as association lists.  Network responses are inputs of the
embedded functions.
-/

/-- One row of `poly_data` as consumed by `calculate_arbitrage_logic`
(api.py lines 336-352, after the price-extraction chain):
`price_to_beat` (`None` modelled as `none`), the extracted
`poly_up_cost`/`poly_down_cost` (lines 341-348) and the depth counts
(lines 351-352). -/
structure PolyData where
  price_to_beat : Option ℚ
  poly_up_cost : ℚ
  poly_down_cost : ℚ
  up_count : ℤ
  down_count : ℤ
deriving DecidableEq, Repr

/-- One Kalshi market dict (api.py lines 372-408): strike, ask prices in
cents, and depth counts. -/
structure KalshiMarket where
  strike : ℚ
  yes_ask : ℚ
  no_ask : ℚ
  yes_count : ℤ
  no_count : ℤ
deriving DecidableEq, Repr

/-- The `kalshi_data` input of `calculate_arbitrage_logic`: its `markets`
list (api.py line 361). -/
structure KalshiData where
  markets : List KalshiMarket
deriving DecidableEq, Repr

/-- A Kelly staking result, the parts of the `kelly` dict the engine
inspects (api.py lines 485-486 and 494). -/
structure KellyRes where
  kelly_fraction : ℚ
  recommendation : String
deriving DecidableEq, Repr

/-- Modelled from the spec: `tracker/kelly_service.py` is not in the source
tree (only its import and call site are).  The spec describes the staking
sub-routine as "a capped fractional-Kelly formula with a fixed confidence
discount" applied to net decimal odds `b = 1/totalCost - 1`.  No claim in
this development depends on the value produced here, only on the fact that
the arbitrage branch calls it and the theoretical branch does not. -/
def calculate_kelly (b : ℚ) (p : ℚ) : KellyRes :=
  let f_star_raw := if b = 0 then 0 else (b * p - (1 - p)) / b
  { kelly_fraction := max 0 (min f_star_raw 1), recommendation := "KELLY" }

/-- One `check_data` record (api.py lines 410-427) after all mutations of
the loop body.  `kelly = none` models the initial empty dict `{}`. -/
structure CheckData where
  kalshi_strike : ℚ
  kalshi_yes : ℚ
  kalshi_no : ℚ
  gap : ℚ
  ctype : String
  poly_leg : String
  kalshi_leg : String
  poly_cost : ℚ
  kalshi_cost : ℚ
  total_cost : ℚ
  is_arbitrage : Bool
  margin : ℚ
  available_contracts : ℤ
  kelly : Option KellyRes
deriving DecidableEq, Repr

/-- Python's `abs` on a rational, written explicitly so that it evaluates
by kernel reduction (it agrees with mathlib's `|.|`, see `absQ_eq_abs`). -/
def absQ (x : ℚ) : ℚ := if x < 0 then -x else x

/-- Validity filter, api.py line 380:
`is_valid_price = (k_yes > 0 and k_no > 0 and k_yes < 100 and k_no < 100)`.
Only the two Kalshi ask prices (in cents) are tested. -/
def isValidPrice (m : KalshiMarket) : Bool :=
  decide (0 < m.yes_ask) && decide (0 < m.no_ask) &&
  decide (m.yes_ask < 100) && decide (m.no_ask < 100)

/-- The leg selection of api.py lines 429-450. -/
structure LegChoice where
  ctype : String
  poly_leg : String
  kalshi_leg : String
  poly_cost : ℚ
  kalshi_cost : ℚ
  avail : ℤ
deriving DecidableEq, Repr

/-- Leg selection (api.py lines 429-450).  In the `Equal` branch the code
only sets `type`, `total_cost` and `available_contracts`; the
`poly_cost`/`kalshi_cost` fields keep their initial value 0, and line 452
then overwrites `total_cost` with `poly_cost + kalshi_cost = 0`. -/
def legSelect (pd : PolyData) (poly_strike : ℚ) (m : KalshiMarket) : LegChoice :=
  if m.strike < poly_strike then
    { ctype := "Poly > Kalshi"
      poly_leg := "Down"
      kalshi_leg := "Yes"
      poly_cost := pd.poly_down_cost
      kalshi_cost := m.yes_ask / 100
      avail := min pd.down_count m.yes_count }
  else if poly_strike < m.strike then
    { ctype := "Poly < Kalshi"
      poly_leg := "Up"
      kalshi_leg := "No"
      poly_cost := pd.poly_up_cost
      kalshi_cost := m.no_ask / 100
      avail := min pd.up_count m.no_count }
  else
    { ctype := "Equal"
      poly_leg := ""
      kalshi_leg := ""
      poly_cost := 0
      kalshi_cost := 0
      avail := min pd.down_count m.yes_count }

/-- The `check_data` record after lines 410-452: initial fields, leg
selection, and `total_cost = poly_cost + kalshi_cost` (line 452). -/
def baseCheck (pd : PolyData) (poly_strike : ℚ) (m : KalshiMarket) : CheckData :=
  let L := legSelect pd poly_strike m
  { kalshi_strike := m.strike
    kalshi_yes := m.yes_ask / 100
    kalshi_no := m.no_ask / 100
    gap := absQ (poly_strike - m.strike)
    ctype := L.ctype
    poly_leg := L.poly_leg
    kalshi_leg := L.kalshi_leg
    poly_cost := L.poly_cost
    kalshi_cost := L.kalshi_cost
    total_cost := L.poly_cost + L.kalshi_cost
    is_arbitrage := false
    margin := 0
    available_contracts := L.avail
    kelly := none }

/-- Lines 456-505: gap-window test `min_gap <= gap_abs <= max_gap` with
`gap_abs = abs(check_data["gap"])`, then either the profitable-arbitrage
mutation (lines 482-489) or the theoretical mutation (lines 490-498); out
of window the record is left as built (only appended to `checks`). -/
def finishCheck (min_gap max_gap : ℚ) (c : CheckData) : CheckData :=
  if min_gap ≤ absQ c.gap ∧ absQ c.gap ≤ max_gap then
    if 0 < c.total_cost ∧ c.total_cost < 1 ∧
       0 < c.poly_cost ∧ c.poly_cost < 1 ∧
       0 < c.kalshi_cost ∧ c.kalshi_cost < 1 ∧
       0 < c.available_contracts then
      { c with
        is_arbitrage := true
        margin := 1 - c.total_cost
        kelly := some (calculate_kelly (1 / c.total_cost - 1) (99 / 100)) }
    else
      { c with
        is_arbitrage := false
        margin := 1 - c.total_cost
        kelly := some { kelly_fraction := 0, recommendation := "THEORETICAL" } }
  else c

/-- The full loop body for one Kalshi market (api.py lines 372-505):
`none` when the validity filter skips the strike (line 395 `continue`),
otherwise the finished `check_data`. -/
def evalStrike (min_gap max_gap : ℚ) (pd : PolyData) (poly_strike : ℚ)
    (m : KalshiMarket) : Option CheckData :=
  if isValidPrice m then some (finishCheck min_gap max_gap (baseCheck pd poly_strike m))
  else none

/-- Membership test for the `opportunities` list (api.py line 480), applied
to a finished check: `min_gap <= abs(gap) <= max_gap`. -/
def inGapWindow (min_gap max_gap : ℚ) (c : CheckData) : Bool :=
  decide (min_gap ≤ absQ c.gap) && decide (absQ c.gap ≤ max_gap)

/-- The engine's output: the `checks` and `opportunities` lists and the
`errors` list of the response dict (api.py lines 324-331). -/
structure ArbResponse where
  checks : List CheckData
  opportunities : List CheckData
  errors : List String
deriving DecidableEq, Repr

/-- Ordering used to sort the Kalshi markets (api.py line 366). -/
def strikeLE (a b : KalshiMarket) : Prop := a.strike ≤ b.strike

instance : DecidableRel strikeLE :=
  fun a b => inferInstanceAs (Decidable (a.strike ≤ b.strike))

/-- `calculate_arbitrage_logic` (api.py lines 317-507) restricted to its
pure core.  `min_gap`/`max_gap` are the values read from the asset's config
(lines 321-322).  Python's `list.sort` is a stable sort, as is
`List.insertionSort`, so the sorted lists agree; every appended
`check_data` goes to `checks` (line 505) and, exactly when the gap window
test passes, also to `opportunities` (line 500). -/
def calculate_arbitrage_logic (min_gap max_gap : ℚ) (pd : PolyData)
    (kd : KalshiData) : ArbResponse :=
  match pd.price_to_beat with
  | none => { checks := [], opportunities := [], errors := ["Polymarket Strike is None"] }
  | some poly_strike =>
    if kd.markets.isEmpty then
      { checks := [], opportunities := [], errors := ["No Kalshi markets found"] }
    else
      let sorted := List.insertionSort strikeLE kd.markets
      let checks := sorted.filterMap (evalStrike min_gap max_gap pd poly_strike)
      { checks := checks
        opportunities := checks.filter (inGapWindow min_gap max_gap)
        errors := [] }

/-!
Market-pair resolver, `backend/tracker/market_generator.py`.

Times are modelled as wall-clock instants in the generator's configured
timezone.  `datetime + timedelta` with a pytz tzinfo performs naive
wall-clock arithmetic (pytz keeps the attached offset), so hour addition
with Gregorian day/month/year carry is the faithful model.  The claims
only use the non-negative offsets 0 and 1, so `hours_offset` is a natural
number here (`hours_offset - 1 if hours_offset > 0 else 0` is mirrored
exactly on naturals).
-/

/-- A wall-clock instant (year, month 1-12, day, hour 0-23, minute); the
model of a timezone-aware Python `datetime` at second granularity 0.
`second`/`microsecond` are dropped: `get_target_hours` zeroes them and no
modelled function reads them. -/
structure PyDateTime where
  year : ℕ
  month : ℕ
  day : ℕ
  hour : ℕ
  minute : ℕ
deriving DecidableEq, Repr

/-- Gregorian leap-year rule. -/
def isLeapYear (y : ℕ) : Bool :=
  (y % 4 == 0 && y % 100 != 0) || (y % 400 == 0)

/-- Days in a Gregorian month. -/
def daysInMonth (y m : ℕ) : ℕ :=
  if m = 2 then (if isLeapYear y then 29 else 28)
  else if m = 4 ∨ m = 6 ∨ m = 9 ∨ m = 11 then 30
  else 31

/-- Advance a wall-clock instant by one day. -/
def nextDay (t : PyDateTime) : PyDateTime :=
  if t.day < daysInMonth t.year t.month then { t with day := t.day + 1 }
  else if t.month < 12 then { t with day := 1, month := t.month + 1 }
  else { t with day := 1, month := 1, year := t.year + 1 }

/-- Advance a wall-clock instant by one hour, carrying into the date. -/
def nextHour (t : PyDateTime) : PyDateTime :=
  if t.hour < 23 then { t with hour := t.hour + 1 }
  else { nextDay t with hour := 0 }

/-- `t + timedelta(hours=n)` on the wall clock. -/
def addHours (t : PyDateTime) : ℕ → PyDateTime
  | 0 => t
  | n + 1 => nextHour (addHours t n)

/-- `now.replace(minute=0, second=0, microsecond=0)`
(market_generator.py line 61). -/
def floorHour (t : PyDateTime) : PyDateTime := { t with minute := 0 }

/-- The `{start, end}` window returned by `get_target_hours`
(market_generator.py lines 46-71).  `end` is a Lean keyword, so the field
is named `finish`. -/
structure MarketWindow where
  start : PyDateTime
  finish : PyDateTime
deriving DecidableEq, Repr

/-- `MarketURLGenerator.get_target_hours` (market_generator.py lines
46-71): floor `now` to the hour, add the offset, window length one hour. -/
def get_target_hours (now : PyDateTime) (offset : ℕ) : MarketWindow :=
  let s := addHours (floorHour now) offset
  { start := s, finish := addHours s 1 }

/-- The per-asset configuration (tracker/config.py `CryptoConfig`); the
field `polymarket_slug_base` carries the source's `polymarket_slug_prefix`
attribute. -/
structure CryptoConfig where
  name : String
  symbol : String
  kalshi_series : String
  kalshi_market_base : String
  polymarket_slug_base : String
deriving DecidableEq, Repr

/-- Zero-padded two-digit rendering, as `strftime("%y")`, `f"{d:02d}"`. -/
def pad2 (n : ℕ) : String :=
  if n < 10 then "0" ++ toString n else toString n

/-- `month_abbr[...]` upper-cased (market_generator.py lines 31-35, 99). -/
def monthAbbrUpper (m : ℕ) : String :=
  match m with
  | 1 => "JAN" | 2 => "FEB" | 3 => "MAR" | 4 => "APR"
  | 5 => "MAY" | 6 => "JUN" | 7 => "JUL" | 8 => "AUG"
  | 9 => "SEP" | 10 => "OCT" | 11 => "NOV" | 12 => "DEC"
  | _ => ""

/-- `month_full[...]` (market_generator.py lines 36-40). -/
def monthFull (m : ℕ) : String :=
  match m with
  | 1 => "january" | 2 => "february" | 3 => "march" | 4 => "april"
  | 5 => "may" | 6 => "june" | 7 => "july" | 8 => "august"
  | 9 => "september" | 10 => "october" | 11 => "november" | 12 => "december"
  | _ => ""

/-- `generate_event_ticker` (market_generator.py lines 92-101):
`{SERIES}-{YY}{MON}{DD}`. -/
def generate_event_ticker (c : CryptoConfig) (t : PyDateTime) : String :=
  c.kalshi_series ++ "-" ++ pad2 (t.year % 100) ++ monthAbbrUpper t.month ++ pad2 t.day

/-- `generate_kalshi_ticker` (market_generator.py lines 103-111):
`{SERIES}-{YY}{MON}{DD}{HH}`, the locally generated candidate used as the
discovery fallback. -/
def generate_kalshi_ticker (c : CryptoConfig) (t : PyDateTime) : String :=
  c.kalshi_series ++ "-" ++ pad2 (t.year % 100) ++ monthAbbrUpper t.month ++
    pad2 t.day ++ pad2 t.hour

/-- `generate_polymarket_slug` (market_generator.py lines 130-164):
`{base}-{month-name}-{day}-{hour12}{am or pm}-et`. -/
def generate_polymarket_slug (c : CryptoConfig) (t : PyDateTime) : String :=
  let hour24 := t.hour
  let hp : ℕ × String :=
    if hour24 = 0 then (12, "am")
    else if hour24 < 12 then (hour24, "am")
    else if hour24 = 12 then (12, "pm")
    else (hour24 - 12, "pm")
  c.polymarket_slug_base ++ "-" ++ monthFull t.month ++ "-" ++ toString t.day ++
    "-" ++ toString hp.1 ++ hp.2 ++ "-et"

/-- One entry of the Kalshi market-listing response consumed by discovery
(market_generator.py lines 216-219): its `close_time` string and
`ticker`. -/
structure KalshiListing where
  close_time : String
  ticker : String
deriving DecidableEq, Repr

/-- The two identifiers of `get_market_pair`'s result that the claims
concern. -/
structure MarketPairInfo where
  kalshi_ticker : String
  polymarket_slug : String
deriving DecidableEq, Repr

/-- `MarketURLGenerator.get_market_pair` (market_generator.py lines
179-241).  `markets` is the Kalshi listing returned by
`kalshi_client.get_markets_by_event` for the generated event ticker;
`isoHourUTC` models `close_time.astimezone(pytz.UTC).strftime
("%Y-%m-%dT%H:00:00Z")` (line 214), i.e. the UTC rendering of an instant
with the sub-hour part pinned to `:00:00`.  Python's
`for m in markets: if m["close_time"] == close_time_iso: break` takes the
first match; `if not real_ticker` falls back when no entry matched or the
matched ticker is the empty string (falsy). -/
def get_market_pair (crypto : CryptoConfig) (markets : List KalshiListing)
    (isoHourUTC : PyDateTime → String) (now : PyDateTime)
    (hours_offset : ℕ) : MarketPairInfo :=
  let ktarget := get_target_hours now hours_offset
  let kalshi_target_time := ktarget.start
  let close_time := ktarget.finish
  let poly_offset := if hours_offset > 0 then hours_offset - 1 else 0
  let poly_target_time := (get_target_hours now poly_offset).start
  let close_time_iso := isoHourUTC close_time
  let found := markets.find? (fun m => m.close_time == close_time_iso)
  let real_ticker :=
    match found with
    | some m =>
        if m.ticker == "" then generate_kalshi_ticker crypto kalshi_target_time
        else m.ticker
    | none => generate_kalshi_ticker crypto kalshi_target_time
  { kalshi_ticker := real_ticker
    polymarket_slug := generate_polymarket_slug crypto poly_target_time }

/-!
Reference-price fetcher, `backend/services/price_fetcher.py`.

The three source fetches (`_fetch_polymarket_data_api`,
`_fetch_binance_intl`, `_fetch_cryptocompare`) each return a float: the
parsed price on success and `0.0` on every error path.  They are passed to
the embedded `get_price_to_beat` as the values `f1 f2 f3` this call would
observe; a cached call never looks at them, so independence from
`f1 f2 f3` witnesses that no fetch is performed.
-/

/-- `PriceResult` (price_fetcher.py lines 22-28) restricted to the fields
the logic reads: `price` and `source`. -/
structure PriceResult where
  price : ℚ
  source : String
deriving DecidableEq, Repr

/-- The fetcher's mutable state: the per-asset cache dict and
`_last_hour` (price_fetcher.py lines 50-52, initialised to `{}` and
`-1`). -/
structure FetcherState where
  cache : List (String × PriceResult)
  last_hour : ℤ
deriving DecidableEq, Repr

/-- The state at construction: empty cache, `_last_hour = -1`. -/
def initFetcherState : FetcherState := { cache := [], last_hour := -1 }

/-- Lines 75-78: clear the whole cache (all assets) when the hour
component changed, and record the new hour. -/
def normalizeState (st : FetcherState) (now_hour : ℤ) : FetcherState :=
  if now_hour = st.last_hour then st else { cache := [], last_hour := now_hour }

/-- Lines 84-110: the ordered three-source fallback.  The first strictly
positive value wins with its source tag; if none is positive the price is
the third fetch's value and the tag stays `"unknown"`. -/
def resolve_price (f1 f2 f3 : ℚ) : PriceResult :=
  if 0 < f1 then { price := f1, source := "polymarket_data_api" }
  else if 0 < f2 then { price := f2, source := "binance_intl" }
  else if 0 < f3 then { price := f3, source := "cryptocompare_binance" }
  else { price := f3, source := "unknown" }

/-- `PriceFetcher.get_price_to_beat` (price_fetcher.py lines 62-115):
hour-rollover cache clear, cache hit short-circuit, ordered fallback,
and unconditional caching of the result (line 114).  Returns the result
and the new state. -/
def get_price_to_beat (st : FetcherState) (asset : String) (now_hour : ℤ)
    (f1 f2 f3 : ℚ) : PriceResult × FetcherState :=
  let st1 := normalizeState st now_hour
  match st1.cache.lookup asset with
  | some r => (r, st1)
  | none =>
    let r := resolve_price f1 f2 f3
    (r, { cache := (asset, r) :: st1.cache, last_hour := st1.last_hour })

/-!
Polymarket stream, `backend/websocket/polymarket_stream.py`.

The asyncio loop's effects on the component state are modelled as step
functions: handling one incoming message (lines 77-101), the reconnect
step taken when the tracked token set changed (lines 57 and 70-72: the
inner loop breaks and the outer loop re-subscribes with the current
`token_ids`, touching no quote), and `add_market` (lines 23-45).
-/

/-- One quote record stored in `self.prices` (lines 87-91, 97-101). -/
structure Quote where
  ask : ℚ
  bid : ℚ
  size : ℚ
deriving DecidableEq, Repr

/-- One entry of a `price_change` event's `price_changes` list, after the
float coercions with default 0 (lines 84-91).  `asset_id` may be missing
(`None`). -/
structure PriceChange where
  asset_id : Option String
  best_ask : ℚ
  best_bid : ℚ
  size : ℚ
deriving DecidableEq, Repr

/-- An incoming WebSocket message as the handler reads it: a
`price_change` event (line 82), or any other dict with optional
`asset_id` and `price` fields (lines 93-101). -/
inductive PolyMessage where
  | price_change (changes : List PriceChange)
  | other (asset_id : Option String) (price : Option ℚ) (size : ℚ)
deriving DecidableEq, Repr

/-- The component's state (lines 16-21): `prices`, `token_ids`,
`current_subscribed_tokens`, `token_to_outcome` (token to
`(outcome, asset_code)`), `monitored_slugs`.  Python sets and dicts are
association lists here. -/
structure PolyStreamState where
  prices : List (String × Quote)
  token_ids : List String
  current_subscribed_tokens : List String
  token_to_outcome : List (String × (String × String))
  monitored_slugs : List String
deriving DecidableEq, Repr

/-- Dict assignment `d[k] = v`: replace the entry in place, or append. -/
def storeAssoc {β : Type} : List (String × β) → String → β → List (String × β)
  | [], t, q => [(t, q)]
  | (k, v) :: rest, t, q =>
      if k = t then (t, q) :: rest else (k, v) :: storeAssoc rest t q

/-- Apply one `price_change` entry (lines 85-91): `if t_id:` skips a
missing or empty (falsy) id, otherwise the token's quote is replaced. -/
def applyChange (prices : List (String × Quote)) (ch : PriceChange) :
    List (String × Quote) :=
  match ch.asset_id with
  | some t =>
      if t = "" then prices
      else storeAssoc prices t { ask := ch.best_ask, bid := ch.best_bid, size := ch.size }
  | none => prices

/-- Handle one incoming message (lines 79-101).  For the non-`price_change`
branch, `if asset_id and price:` skips a missing/empty id and a missing or
zero (falsy) price. -/
def handleMessage (st : PolyStreamState) (msg : PolyMessage) : PolyStreamState :=
  match msg with
  | .price_change changes => { st with prices := changes.foldl applyChange st.prices }
  | .other aid price size =>
    match aid, price with
    | some t, some p =>
        if t = "" ∨ p = 0 then st
        else { st with prices := storeAssoc st.prices t { ask := p, bid := p, size := size } }
    | _, _ => st

/-- The tokens a message names. -/
def touchedTokens : PolyMessage → List String
  | .price_change changes => changes.filterMap (fun c => c.asset_id)
  | .other aid _ _ => aid.toList

/-- The reconnect step (lines 57, 70-72): when `set(token_ids)` differs
from `current_subscribed_tokens` the inner loop breaks and the outer loop
re-subscribes with the full current token list; no other field is
touched. -/
def reconnect (st : PolyStreamState) : PolyStreamState :=
  { st with current_subscribed_tokens := st.token_ids }

/-- One step of `add_market`'s token registration (lines 36-40): append an
unseen token id and record its `(outcome, asset)` back-reference. -/
def addTokenStep (asset_code : String) (outcomes : List String)
    (s2 : PolyStreamState) (it : ℕ × String) : PolyStreamState :=
  let t := it.2
  let s3 := { s2 with
    token_ids := if t ∈ s2.token_ids then s2.token_ids else s2.token_ids ++ [t] }
  match outcomes.get? it.1 with
  | some oc => { s3 with
      token_to_outcome := storeAssoc s3.token_to_outcome t (oc, asset_code) }
  | none => s3

/-- The per-market part of `add_market` (lines 33-40): enumerate the
market's token ids and record each with its outcome. -/
def addMarketTokens (asset_code : String) (s : PolyStreamState)
    (m : List String × List String) : PolyStreamState :=
  (m.1.enum).foldl (addTokenStep asset_code m.2) s

/-- `add_market` (lines 23-45): no-op for an already monitored slug;
otherwise, for each market of the discovery response (given as its
`(clobTokenIds, outcomes)` pairs), append unseen token ids and record the
token-to-(outcome, asset) back-references, then record the slug.  The
`prices` table is never touched. -/
def add_market (st : PolyStreamState) (asset_code slug : String)
    (mkts : List (List String × List String)) : PolyStreamState :=
  if slug ∈ st.monitored_slugs then st
  else
    let st1 := mkts.foldl (addMarketTokens asset_code) st
    { st1 with monitored_slugs := st1.monitored_slugs ++ [slug] }

/-!
Helper lemmas about the engine.  None of these is a claim theorem.
-/

/-- `absQ` is mathlib's absolute value on `ℚ`. -/
theorem absQ_eq_abs (x : ℚ) : absQ x = |x| := by
  unfold absQ
  split
  · exact (abs_of_neg (by assumption)).symm
  · exact (abs_of_nonneg (not_lt.mp (by assumption))).symm

/-- With a resolved reference price, the `checks` list is the filterMap of
the per-strike evaluation over the sorted markets (in the empty-markets
early return both sides are `[]`). -/
theorem checks_eq_filterMap (g G ps : ℚ) (pd : PolyData) (kd : KalshiData)
    (hps : pd.price_to_beat = some ps) :
    (calculate_arbitrage_logic g G pd kd).checks =
      (List.insertionSort strikeLE kd.markets).filterMap (evalStrike g G pd ps) := by
  unfold calculate_arbitrage_logic
  rw [hps]
  by_cases h : kd.markets.isEmpty
  · rw [List.isEmpty_iff] at h
    simp [h]
  · simp [h]

/-- The `opportunities` list is always the gap-window filter of `checks`. -/
theorem opps_eq_filter (g G : ℚ) (pd : PolyData) (kd : KalshiData) :
    (calculate_arbitrage_logic g G pd kd).opportunities =
      (calculate_arbitrage_logic g G pd kd).checks.filter (inGapWindow g G) := by
  unfold calculate_arbitrage_logic
  cases pd.price_to_beat with
  | none => simp
  | some ps =>
    by_cases h : kd.markets.isEmpty <;> simp [h]

/-- Every emitted check comes from a market of the input that passed the
validity filter, with the reference price resolved. -/
theorem mem_checks_elim {g G : ℚ} {pd : PolyData} {kd : KalshiData} {c : CheckData}
    (hc : c ∈ (calculate_arbitrage_logic g G pd kd).checks) :
    ∃ ps, pd.price_to_beat = some ps ∧
      ∃ m ∈ kd.markets, isValidPrice m = true ∧
        c = finishCheck g G (baseCheck pd ps m) := by
  cases hb : pd.price_to_beat with
  | none =>
    rw [show (calculate_arbitrage_logic g G pd kd).checks = [] by
      unfold calculate_arbitrage_logic; rw [hb]] at hc
    cases hc
  | some ps =>
    refine ⟨ps, rfl, ?_⟩
    rw [checks_eq_filterMap g G ps pd kd hb] at hc
    rcases List.mem_filterMap.mp hc with ⟨m, hm, hev⟩
    refine ⟨m, (List.perm_insertionSort strikeLE kd.markets).mem_iff.mp hm, ?_⟩
    unfold evalStrike at hev
    by_cases hv : isValidPrice m
    · rw [if_pos hv] at hev
      exact ⟨hv, (Option.some_inj.mp hev).symm⟩
    · rw [if_neg hv] at hev
      cases hev

/-- `finishCheck` only mutates `is_arbitrage`, `margin` and `kelly`. -/
theorem finishCheck_preserves (g G : ℚ) (c : CheckData) :
    (finishCheck g G c).kalshi_strike = c.kalshi_strike ∧
    (finishCheck g G c).kalshi_yes = c.kalshi_yes ∧
    (finishCheck g G c).kalshi_no = c.kalshi_no ∧
    (finishCheck g G c).gap = c.gap ∧
    (finishCheck g G c).ctype = c.ctype ∧
    (finishCheck g G c).poly_cost = c.poly_cost ∧
    (finishCheck g G c).kalshi_cost = c.kalshi_cost ∧
    (finishCheck g G c).total_cost = c.total_cost ∧
    (finishCheck g G c).available_contracts = c.available_contracts := by
  unfold finishCheck
  split
  · split <;> simp
  · simp

/-- Field values of the record built by `baseCheck`. -/
theorem baseCheck_fields (pd : PolyData) (ps : ℚ) (m : KalshiMarket) :
    (baseCheck pd ps m).kalshi_strike = m.strike ∧
    (baseCheck pd ps m).kalshi_yes = m.yes_ask / 100 ∧
    (baseCheck pd ps m).kalshi_no = m.no_ask / 100 ∧
    (baseCheck pd ps m).gap = absQ (ps - m.strike) ∧
    (baseCheck pd ps m).total_cost =
      (baseCheck pd ps m).poly_cost + (baseCheck pd ps m).kalshi_cost ∧
    (baseCheck pd ps m).is_arbitrage = false := by
  simp [baseCheck]

/-- The `Equal` branch of the leg selection: type `"Equal"`, leg costs left
at their initial value 0. -/
theorem baseCheck_equal (pd : PolyData) (ps : ℚ) (m : KalshiMarket)
    (h : ps = m.strike) :
    (baseCheck pd ps m).ctype = "Equal" ∧
    (baseCheck pd ps m).poly_cost = 0 ∧
    (baseCheck pd ps m).kalshi_cost = 0 := by
  simp [baseCheck, legSelect, h]

/-- If the finished check carries `is_arbitrage = true`, the full
profitability condition of api.py line 482 held for the built record. -/
theorem finishCheck_arb_cond (g G : ℚ) (pd : PolyData) (ps : ℚ) (m : KalshiMarket)
    (h : (finishCheck g G (baseCheck pd ps m)).is_arbitrage = true) :
    0 < (baseCheck pd ps m).total_cost ∧ (baseCheck pd ps m).total_cost < 1 ∧
    0 < (baseCheck pd ps m).poly_cost ∧ (baseCheck pd ps m).poly_cost < 1 ∧
    0 < (baseCheck pd ps m).kalshi_cost ∧ (baseCheck pd ps m).kalshi_cost < 1 ∧
    0 < (baseCheck pd ps m).available_contracts := by
  unfold finishCheck at h
  split at h
  · split at h
    · assumption
    · simp at h
  · rw [(baseCheck_fields pd ps m).2.2.2.2.2] at h
    cases h

/-- Inside the gap window, failing the profitability condition yields the
theoretical marking. -/
theorem finishCheck_theoretical (g G : ℚ) (c : CheckData)
    (hw : g ≤ absQ c.gap ∧ absQ c.gap ≤ G)
    (hnp : ¬ (0 < c.total_cost ∧ c.total_cost < 1 ∧
              0 < c.poly_cost ∧ c.poly_cost < 1 ∧
              0 < c.kalshi_cost ∧ c.kalshi_cost < 1 ∧
              0 < c.available_contracts)) :
    (finishCheck g G c).is_arbitrage = false ∧
    (finishCheck g G c).kelly =
      some { kelly_fraction := 0, recommendation := "THEORETICAL" } := by
  unfold finishCheck
  rw [if_pos hw, if_neg hnp]
  simp

/-- Counting checks through the per-strike evaluation. -/
theorem countP_filterMap_evalStrike (g G ps : ℚ) (pd : PolyData)
    (p : CheckData → Bool) (l : List KalshiMarket) :
    ((l.filterMap (evalStrike g G pd ps)).countP p) =
      l.countP (fun m => isValidPrice m && p (finishCheck g G (baseCheck pd ps m))) := by
  induction l with
  | nil => rfl
  | cons m t ih =>
    by_cases hv : isValidPrice m
    · simp [evalStrike, hv, List.filterMap_cons, List.countP_cons, ih]
    · simp [evalStrike, hv, List.filterMap_cons, List.countP_cons, ih]

/-!
Concrete engine inputs used by counterexamples, existential conjuncts and
witnesses.
-/

/-- Reference price 95000 with both Polymarket asks live; one Kalshi market
whose strike equals the reference price and passes the validity filter. -/
def pdW1 : PolyData :=
  { price_to_beat := some 95000, poly_up_cost := 9/20, poly_down_cost := 13/25, up_count := 10, down_count := 10 }

/-- A single Kalshi market at the reference price. -/
def kdW1 : KalshiData :=
  { markets := [{ strike := 95000, yes_ask := 50, no_ask := 48, yes_count := 10, no_count := 10 }] }

/-- Polymarket data whose `Down` ask is exactly 0 (a dead venue-B quote). -/
def pdW2 : PolyData :=
  { price_to_beat := some 95000, poly_up_cost := 9/20, poly_down_cost := 0, up_count := 10, down_count := 10 }

/-- One Kalshi market below the reference price with valid asks. -/
def kdW2 : KalshiData :=
  { markets := [{ strike := 94000, yes_ask := 40, no_ask := 55, yes_count := 10, no_count := 10 }] }

/-- The check the engine emits for `pdW2`/`kdW2` with gap window
`[0, 2000]`: the relevant venue-B leg (`Down`) has ask 0, yet the strike is
not skipped; it is marked theoretical. -/
def cW2 : CheckData :=
  { kalshi_strike := 94000, kalshi_yes := 2/5, kalshi_no := 11/20, gap := 1000, ctype := "Poly > Kalshi", poly_leg := "Down", kalshi_leg := "Yes", poly_cost := 0, kalshi_cost := 2/5, total_cost := 2/5, is_arbitrage := false, margin := 3/5, available_contracts := 10, kelly := some { kelly_fraction := 0, recommendation := "THEORETICAL" } }

/-- Profitable prices but zero liquidity on the Polymarket side. -/
def pdW3 : PolyData :=
  { price_to_beat := some 95000, poly_up_cost := 9/20, poly_down_cost := 2/5, up_count := 0, down_count := 0 }

/-- One Kalshi market below the reference price with valid asks. -/
def kdW3 : KalshiData :=
  { markets := [{ strike := 94000, yes_ask := 40, no_ask := 55, yes_count := 10, no_count := 10 }] }

/-- The check emitted for `pdW3`/`kdW3` with gap window `[0, 2000]`: cost
bounds hold (total 4/5) but liquidity is 0, so it is theoretical. -/
def cW3 : CheckData :=
  { kalshi_strike := 94000, kalshi_yes := 2/5, kalshi_no := 11/20, gap := 1000, ctype := "Poly > Kalshi", poly_leg := "Down", kalshi_leg := "Yes", poly_cost := 2/5, kalshi_cost := 2/5, total_cost := 4/5, is_arbitrage := false, margin := 1/5, available_contracts := 0, kelly := some { kelly_fraction := 0, recommendation := "THEORETICAL" } }

/-- Profitable and liquid prices, but the strike is 5000 away from the
reference price — outside a `[0, 2000]` gap window. -/
def pdW4 : PolyData :=
  { price_to_beat := some 95000, poly_up_cost := 9/20, poly_down_cost := 2/5, up_count := 10, down_count := 10 }

/-- One Kalshi market far below the reference price with valid asks. -/
def kdW4 : KalshiData :=
  { markets := [{ strike := 90000, yes_ask := 40, no_ask := 55, yes_count := 10, no_count := 10 }] }

/-- Claim C1, counterexample: with the reference price exactly equal to the
only venue-A strike (which passes the validity filter), the engine emits
exactly ONE OpportunityCheck for that strike, not the two the claim
requires. -/
theorem equal_strike_single_check_cex :
    ((calculate_arbitrage_logic 0 2000 pdW1 kdW1).checks.countP
        (fun c => decide (c.kalshi_strike = 95000))) = 1 ∧
    ¬ ((calculate_arbitrage_logic 0 2000 pdW1 kdW1).checks.countP
        (fun c => decide (c.kalshi_strike = 95000))) = 2 := by
  norm_num [calculate_arbitrage_logic, pdW1, kdW1, evalStrike, isValidPrice,
    finishCheck, baseCheck, legSelect, absQ, inGapWindow, calculate_kelly,
    strikeLE, List.insertionSort, List.orderedInsert, List.filterMap_cons,
    List.countP_cons]

/-- Claim C1, amended: for every evaluation with a resolved reference
price, each validity-passing venue-A market contributes exactly one check
(so a strike equal to the reference price with one market entry yields
exactly one OpportunityCheck, never two), and every equal-strike check is
typed `"Equal"` with both recorded leg costs 0. -/
theorem equal_strike_single_check (g G s ps : ℚ) (pd : PolyData)
    (kd : KalshiData) (hps : pd.price_to_beat = some ps) :
    ((calculate_arbitrage_logic g G pd kd).checks.countP
        (fun c => decide (c.kalshi_strike = s)))
      = kd.markets.countP (fun m => isValidPrice m && decide (m.strike = s)) ∧
    ∀ c ∈ (calculate_arbitrage_logic g G pd kd).checks,
      c.kalshi_strike = ps →
        c.ctype = "Equal" ∧ c.poly_cost = 0 ∧ c.kalshi_cost = 0 := by
  constructor
  · rw [checks_eq_filterMap g G ps pd kd hps, countP_filterMap_evalStrike]
    have hpred : (fun m => isValidPrice m &&
        decide ((finishCheck g G (baseCheck pd ps m)).kalshi_strike = s)) =
        (fun m => isValidPrice m && decide (m.strike = s)) := by
      funext m
      rw [(finishCheck_preserves g G (baseCheck pd ps m)).1,
        (baseCheck_fields pd ps m).1]
    rw [hpred]
    exact (List.perm_insertionSort strikeLE kd.markets).countP_eq _
  · intro c hc hstrike
    rcases mem_checks_elim hc with ⟨ps2, hps2, m, _, _, hceq⟩
    have hpp : ps2 = ps := Option.some_inj.mp (hps2.symm.trans hps)
    subst hpp
    subst hceq
    obtain ⟨p1, _, _, _, p5, p6, p7, _, _⟩ :=
      finishCheck_preserves g G (baseCheck pd ps2 m)
    rw [p1, (baseCheck_fields pd ps2 m).1] at hstrike
    obtain ⟨e1, e2, e3⟩ := baseCheck_equal pd ps2 m hstrike.symm
    exact ⟨p5.trans e1, p6.trans e2, p7.trans e3⟩

/-- Claim C1, witness: at the concrete equal-strike input the count of
checks for the equal strike is 1. -/
theorem equal_strike_single_check_wit :
    ((calculate_arbitrage_logic 0 2000 pdW1 kdW1).checks.countP
        (fun c => decide (c.kalshi_strike = 95000))) = 1 := by
  rw [(equal_strike_single_check 0 2000 95000 95000 pdW1 kdW1 rfl).1]
  norm_num [kdW1, isValidPrice]

/-- Claim C2, counterexample: with the relevant venue-B leg's ask exactly 0
(`Down` ask, reference price above the strike) and valid venue-A asks, the
strike is NOT skipped: its check appears in `checks` and (being inside the
gap window) in `opportunities`, with `poly_cost = 0`. -/
theorem validity_filter_poly_leg_cex :
    (calculate_arbitrage_logic 0 2000 pdW2 kdW2).checks.map CheckData.poly_cost = [0] ∧
    (calculate_arbitrage_logic 0 2000 pdW2 kdW2).checks.map CheckData.poly_leg = ["Down"] ∧
    (calculate_arbitrage_logic 0 2000 pdW2 kdW2).checks ≠ [] ∧
    (calculate_arbitrage_logic 0 2000 pdW2 kdW2).opportunities ≠ [] := by
  norm_num [calculate_arbitrage_logic, pdW2, kdW2, evalStrike, isValidPrice,
    finishCheck, baseCheck, legSelect, absQ, inGapWindow, calculate_kelly,
    strikeLE, List.insertionSort, List.orderedInsert, List.filterMap_cons]

/-- Claim C2, amended: the validity filter tests only the two venue-A ask
prices — every emitted check (in `checks`, hence also in `opportunities`,
which is a subset) has both venue-A asks strictly between 0 and 1 in payout
units; a venue-B ask of 0 or ≥ 1 does not skip the strike, it only forces
`is_arbitrage = false`. -/
theorem validity_filter_kalshi_only (g G : ℚ) (pd : PolyData) (kd : KalshiData) :
    (∀ c ∈ (calculate_arbitrage_logic g G pd kd).checks,
      (0 < c.kalshi_yes ∧ c.kalshi_yes < 1 ∧ 0 < c.kalshi_no ∧ c.kalshi_no < 1) ∧
      (¬ (0 < c.poly_cost ∧ c.poly_cost < 1) → c.is_arbitrage = false)) ∧
    (∀ c ∈ (calculate_arbitrage_logic g G pd kd).opportunities,
      c ∈ (calculate_arbitrage_logic g G pd kd).checks) := by
  constructor
  · intro c hc
    rcases mem_checks_elim hc with ⟨ps, _, m, _, hv, hceq⟩
    subst hceq
    obtain ⟨p1, p2, p3, p4, p5, p6, p7, p8, p9⟩ :=
      finishCheck_preserves g G (baseCheck pd ps m)
    obtain ⟨b1, b2, b3, b4, b5, b6⟩ := baseCheck_fields pd ps m
    simp only [isValidPrice, Bool.and_eq_true, decide_eq_true_eq] at hv
    obtain ⟨⟨⟨hy0, hn0⟩, hy1⟩, hn1⟩ := hv
    constructor
    · refine ⟨?_, ?_, ?_, ?_⟩
      · rw [p2, b2]; exact div_pos hy0 (by norm_num)
      · rw [p2, b2]; exact (div_lt_one (by norm_num)).mpr hy1
      · rw [p3, b3]; exact div_pos hn0 (by norm_num)
      · rw [p3, b3]; exact (div_lt_one (by norm_num)).mpr hn1
    · intro hnp
      rcases Bool.eq_false_or_eq_true
          ((finishCheck g G (baseCheck pd ps m)).is_arbitrage) with hb | hb
      · exfalso
        obtain ⟨_, _, hp0, hp1, _, _, _⟩ := finishCheck_arb_cond g G pd ps m hb
        exact hnp ⟨by rw [p6]; exact hp0, by rw [p6]; exact hp1⟩
      · exact hb
  · intro c hc
    rw [opps_eq_filter] at hc
    exact (List.mem_filter.mp hc).1

/-- Claim C2, witness: the concrete check `cW2` (emitted despite its
venue-B leg ask being 0) satisfies the amended validity and arbitrage-flag
properties. -/
theorem validity_filter_kalshi_only_wit :
    (0 < cW2.kalshi_yes ∧ cW2.kalshi_yes < 1 ∧ 0 < cW2.kalshi_no ∧ cW2.kalshi_no < 1) ∧
    (¬ (0 < cW2.poly_cost ∧ cW2.poly_cost < 1) → cW2.is_arbitrage = false) :=
  (validity_filter_kalshi_only 0 2000 pdW2 kdW2).1 cW2 (by
    norm_num [calculate_arbitrage_logic, pdW2, kdW2, cW2, evalStrike, isValidPrice,
      finishCheck, baseCheck, legSelect, absQ, inGapWindow, calculate_kelly,
      strikeLE, List.insertionSort, List.orderedInsert, List.filterMap_cons])

/-- Claim C3: for every emitted check, `total_cost` is the sum of the two
recorded leg costs, and `is_arbitrage = true` implies `0 < total_cost < 1`
and positive available contracts; the converse fails at a concrete input
whose check satisfies the cost bounds but has zero liquidity. -/
theorem is_arbitrage_implies_bounds (g G : ℚ) (pd : PolyData) (kd : KalshiData) :
    (∀ c ∈ (calculate_arbitrage_logic g G pd kd).checks,
      c.total_cost = c.poly_cost + c.kalshi_cost ∧
      (c.is_arbitrage = true →
        0 < c.total_cost ∧ c.total_cost < 1 ∧ 0 < c.available_contracts)) ∧
    (∃ c ∈ (calculate_arbitrage_logic 0 2000 pdW3 kdW3).checks,
      0 < c.total_cost ∧ c.total_cost < 1 ∧ c.available_contracts = 0 ∧
      c.is_arbitrage = false) := by
  constructor
  · intro c hc
    rcases mem_checks_elim hc with ⟨ps, _, m, _, _, hceq⟩
    subst hceq
    obtain ⟨p1, p2, p3, p4, p5, p6, p7, p8, p9⟩ :=
      finishCheck_preserves g G (baseCheck pd ps m)
    obtain ⟨b1, b2, b3, b4, b5, b6⟩ := baseCheck_fields pd ps m
    constructor
    · rw [p8, p6, p7]; exact b5
    · intro harb
      obtain ⟨h1, h2, _, _, _, _, h7⟩ := finishCheck_arb_cond g G pd ps m harb
      exact ⟨by rw [p8]; exact h1, by rw [p8]; exact h2, by rw [p9]; exact h7⟩
  · refine ⟨cW3, ?_, ?_⟩
    · norm_num [calculate_arbitrage_logic, pdW3, kdW3, cW3, evalStrike, isValidPrice,
        finishCheck, baseCheck, legSelect, absQ, inGapWindow, calculate_kelly,
        strikeLE, List.insertionSort, List.orderedInsert, List.filterMap_cons]
    · norm_num [cW3]

/-- Claim C3, witness: the general part applied at the concrete
zero-liquidity input. -/
theorem is_arbitrage_implies_bounds_wit :
    cW3.total_cost = cW3.poly_cost + cW3.kalshi_cost :=
  ((is_arbitrage_implies_bounds 0 2000 pdW3 kdW3).1 cW3 (by
    norm_num [calculate_arbitrage_logic, pdW3, kdW3, cW3, evalStrike, isValidPrice,
      finishCheck, baseCheck, legSelect, absQ, inGapWindow, calculate_kelly,
      strikeLE, List.insertionSort, List.orderedInsert, List.filterMap_cons])).1

/-- Claim C4: a check enters `opportunities` exactly when its gap lies in
`[min_gap, max_gap]` (independent of profitability); every in-window check
failing profitability-and-liquidity is marked theoretical with a
zero-staking recommendation; and at a concrete input a profitable, liquid,
out-of-window check is still in `checks` but not in `opportunities`. -/
theorem gap_window_filter (g G : ℚ) (pd : PolyData) (kd : KalshiData) :
    (∀ c, c ∈ (calculate_arbitrage_logic g G pd kd).opportunities ↔
      (c ∈ (calculate_arbitrage_logic g G pd kd).checks ∧
        g ≤ absQ c.gap ∧ absQ c.gap ≤ G)) ∧
    (∀ c ∈ (calculate_arbitrage_logic g G pd kd).checks,
      (g ≤ absQ c.gap ∧ absQ c.gap ≤ G) →
      ¬ (0 < c.total_cost ∧ c.total_cost < 1 ∧ 0 < c.available_contracts) →
      c.is_arbitrage = false ∧
        c.kelly = some { kelly_fraction := 0, recommendation := "THEORETICAL" }) ∧
    (∃ c ∈ (calculate_arbitrage_logic 0 2000 pdW4 kdW4).checks,
      (0 < c.total_cost ∧ c.total_cost < 1 ∧ 0 < c.available_contracts) ∧
      c ∉ (calculate_arbitrage_logic 0 2000 pdW4 kdW4).opportunities) := by
  refine ⟨?_, ?_, ?_⟩
  · intro c
    rw [opps_eq_filter, List.mem_filter]
    simp [inGapWindow, and_assoc]
  · intro c hc hw hnpl
    rcases mem_checks_elim hc with ⟨ps, _, m, _, _, hceq⟩
    subst hceq
    obtain ⟨p1, p2, p3, p4, p5, p6, p7, p8, p9⟩ :=
      finishCheck_preserves g G (baseCheck pd ps m)
    rw [p4] at hw
    by_cases hbig : 0 < (baseCheck pd ps m).total_cost ∧
        (baseCheck pd ps m).total_cost < 1 ∧
        0 < (baseCheck pd ps m).poly_cost ∧ (baseCheck pd ps m).poly_cost < 1 ∧
        0 < (baseCheck pd ps m).kalshi_cost ∧ (baseCheck pd ps m).kalshi_cost < 1 ∧
        0 < (baseCheck pd ps m).available_contracts
    · exfalso
      obtain ⟨h1, h2, _, _, _, _, h7⟩ := hbig
      exact hnpl ⟨by rw [p8]; exact h1, by rw [p8]; exact h2, by rw [p9]; exact h7⟩
    · exact finishCheck_theoretical g G (baseCheck pd ps m) hw hbig
  · refine ⟨finishCheck 0 2000 (baseCheck pdW4 95000 (kdW4.markets.get ⟨0, by norm_num [kdW4]⟩)), ?_, ?_, ?_⟩
    · norm_num [calculate_arbitrage_logic, pdW4, kdW4, evalStrike, isValidPrice,
        strikeLE, List.insertionSort, List.orderedInsert, List.filterMap_cons]
    · norm_num [pdW4, kdW4, finishCheck, baseCheck, legSelect, absQ, calculate_kelly]
    · rw [opps_eq_filter, List.mem_filter]
      norm_num [pdW4, kdW4, finishCheck, baseCheck, legSelect, absQ, inGapWindow,
        calculate_kelly]

/-- Claim C4, witness: the theoretical-marking part applied at the concrete
zero-liquidity in-window input. -/
theorem gap_window_filter_wit :
    cW3.is_arbitrage = false ∧
    cW3.kelly = some { kelly_fraction := 0, recommendation := "THEORETICAL" } :=
  (gap_window_filter 0 2000 pdW3 kdW3).2.1 cW3 (by
      norm_num [calculate_arbitrage_logic, pdW3, kdW3, cW3, evalStrike, isValidPrice,
        finishCheck, baseCheck, legSelect, absQ, inGapWindow, calculate_kelly,
        strikeLE, List.insertionSort, List.orderedInsert, List.filterMap_cons])
    (by norm_num [cW3, absQ]) (by norm_num [cW3])

/-!
Claims C5 and C6: market-pair resolution.
-/

/-- Minute preservation: adding hours never changes the minute field. -/
theorem addHours_minute (t : PyDateTime) (n : ℕ) :
    (addHours t n).minute = t.minute := by
  induction n with
  | zero => rfl
  | succ k ih =>
    show (nextHour (addHours t k)).minute = t.minute
    rw [← ih]
    unfold nextHour nextDay
    split
    · rfl
    · split
      · rfl
      · split <;> rfl

/-- The resolved Kalshi ticker as a function of the discovery listing. -/
theorem get_market_pair_ticker (crypto : CryptoConfig)
    (markets : List KalshiListing) (iso : PyDateTime → String)
    (now : PyDateTime) (off : ℕ) :
    (get_market_pair crypto markets iso now off).kalshi_ticker =
      match markets.find? (fun m => m.close_time == iso (get_target_hours now off).finish) with
      | some m =>
          if m.ticker == "" then
            generate_kalshi_ticker crypto (get_target_hours now off).start
          else m.ticker
      | none => generate_kalshi_ticker crypto (get_target_hours now off).start := rfl

/-- Claim C5: for a fixed current time, the venue-B (Polymarket) identifier
resolved with requested offset 1 equals the one resolved with offset 0 —
venue B is queried with `offset - 1` floored at 0 — regardless of the
venue-A discovery listing. -/
theorem pair_offset_same_poly_slug (crypto : CryptoConfig)
    (markets1 markets2 : List KalshiListing)
    (iso1 iso2 : PyDateTime → String) (now : PyDateTime) :
    (get_market_pair crypto markets1 iso1 now 1).polymarket_slug =
      (get_market_pair crypto markets2 iso2 now 0).polymarket_slug := rfl

/-- Claim C6: venue-A discovery selects the (first) listing entry whose
close time string equals the UTC rendering of the target window's end
(whose sub-hour part is zero, so the comparison is exact to the second);
when no entry matches, the resolver returns the locally generated candidate
ticker instead of failing. -/
theorem kalshi_discovery_selection_fallback (crypto : CryptoConfig)
    (markets : List KalshiListing) (iso : PyDateTime → String)
    (now : PyDateTime) (off : ℕ) :
    ((∀ m ∈ markets, m.close_time ≠ iso (get_target_hours now off).finish) →
      (get_market_pair crypto markets iso now off).kalshi_ticker =
        generate_kalshi_ticker crypto (get_target_hours now off).start) ∧
    (∀ m, markets.find?
        (fun m' => m'.close_time == iso (get_target_hours now off).finish) = some m →
      m.ticker ≠ "" →
      (get_market_pair crypto markets iso now off).kalshi_ticker = m.ticker) ∧
    (get_target_hours now off).finish.minute = 0 := by
  refine ⟨?_, ?_, ?_⟩
  · intro hnone
    have hfind : markets.find?
        (fun m => m.close_time == iso (get_target_hours now off).finish) = none := by
      rw [List.find?_eq_none]
      intro m hm
      simpa using hnone m hm
    rw [get_market_pair_ticker, hfind]
  · intro m hfind hm
    rw [get_market_pair_ticker, hfind]
    simp [hm]
  · show (addHours (addHours (floorHour now) off) 1).minute = 0
    rw [addHours_minute, addHours_minute]
    rfl

/-- A configuration and instant used to witness the discovery fallback. -/
def cfgW : CryptoConfig :=
  { name := "Bitcoin", symbol := "BTC", kalshi_series := "KXBTCD", kalshi_market_base := "kxbtcd", polymarket_slug_base := "bitcoin-up-or-down" }

/-- A concrete instant (2026-01-09 20:30 ET). -/
def nowW : PyDateTime :=
  { year := 2026, month := 1, day := 9, hour := 20, minute := 30 }

/-- A close-time formatter that matches no listing entry. -/
def isoW : PyDateTime → String := fun _ => "2026-01-10T02:00:00Z"

/-- Claim C6, witness: with an empty discovery listing the resolver falls
back to the generated candidate ticker. -/
theorem kalshi_discovery_selection_fallback_wit :
    (get_market_pair cfgW [] isoW nowW 0).kalshi_ticker =
      generate_kalshi_ticker cfgW (get_target_hours nowW 0).start :=
  (kalshi_discovery_selection_fallback cfgW [] isoW nowW 0).1 (by simp)

/-!
Claims C7, C8, C10: reference-price resolution and caching.
-/

/-- After the rollover check, the recorded hour is the current one. -/
theorem normalizeState_last (st : FetcherState) (h : ℤ) :
    (normalizeState st h).last_hour = h := by
  unfold normalizeState
  split
  · next heq => exact heq.symm
  · rfl

/-- The rollover check is the identity when the hour is unchanged. -/
theorem normalizeState_of_eq (st : FetcherState) (h : ℤ)
    (hl : st.last_hour = h) : normalizeState st h = st := by
  unfold normalizeState
  rw [if_pos hl.symm]

/-- Looking up the key just stored finds the stored value. -/
theorem lookup_cons_self {β : Type} (k : String) (v : β)
    (l : List (String × β)) : ((k, v) :: l).lookup k = some v := by
  simp [List.lookup]

/-- A second call in the same hour returns the first call's result and
leaves the state unchanged, whatever values the sources would now return
(no fetch is observed). -/
theorem get_price_second_call (st : FetcherState) (asset : String) (h : ℤ)
    (f1 f2 f3 g1 g2 g3 : ℚ) :
    get_price_to_beat (get_price_to_beat st asset h f1 f2 f3).2 asset h g1 g2 g3 =
      ((get_price_to_beat st asset h f1 f2 f3).1,
        (get_price_to_beat st asset h f1 f2 f3).2) := by
  unfold get_price_to_beat
  have hlast : (normalizeState st h).last_hour = h := normalizeState_last st h
  cases hl : (normalizeState st h).cache.lookup asset with
  | some r =>
    simp only [hl]
    rw [normalizeState_of_eq _ _ hlast]
    simp only [hl]
  | none =>
    simp only [hl]
    rw [normalizeState_of_eq _ _ (show (FetcherState.mk
        ((asset, resolve_price f1 f2 f3) :: (normalizeState st h).cache)
        (normalizeState st h).last_hour).last_hour = h from hlast)]
    rw [lookup_cons_self]

/-- Claim C7 (amended): on a resolution that misses the cache, the sources
are tried in the fixed order and the first strictly positive value is
returned with its source tag; when all three are non-positive the result is
tagged `"unknown"` and carries the third source's value (which is 0
whenever the sources fail through their error paths, since every error
path returns 0.0) — no exception is raised. -/
theorem price_fallback_order (st : FetcherState) (asset : String) (h : ℤ)
    (f1 f2 f3 : ℚ)
    (hmiss : (normalizeState st h).cache.lookup asset = none) :
    (get_price_to_beat st asset h f1 f2 f3).1 = resolve_price f1 f2 f3 ∧
    (0 < f1 → resolve_price f1 f2 f3 = { price := f1, source := "polymarket_data_api" }) ∧
    (f1 ≤ 0 → 0 < f2 → resolve_price f1 f2 f3 = { price := f2, source := "binance_intl" }) ∧
    (f1 ≤ 0 → f2 ≤ 0 → 0 < f3 →
      resolve_price f1 f2 f3 = { price := f3, source := "cryptocompare_binance" }) ∧
    (f1 ≤ 0 → f2 ≤ 0 → f3 ≤ 0 →
      (resolve_price f1 f2 f3).source = "unknown" ∧ (resolve_price f1 f2 f3).price = f3) := by
  refine ⟨?_, ?_, ?_, ?_, ?_⟩
  · unfold get_price_to_beat
    simp only [hmiss]
  · intro h1
    unfold resolve_price
    rw [if_pos h1]
  · intro h1 h2
    unfold resolve_price
    rw [if_neg (not_lt.mpr h1), if_pos h2]
  · intro h1 h2 h3
    unfold resolve_price
    rw [if_neg (not_lt.mpr h1), if_neg (not_lt.mpr h2), if_pos h3]
  · intro h1 h2 h3
    unfold resolve_price
    rw [if_neg (not_lt.mpr h1), if_neg (not_lt.mpr h2), if_neg (not_lt.mpr h3)]
    exact ⟨rfl, rfl⟩

/-- Claim C7, counterexample to the claim as stated: if all three sources
return non-positive values (third returns −1, as when the mirror API
reports a negative open price), the result is tagged `"unknown"` but its
value is −1, not 0. -/
theorem price_fallback_zero_cex :
    (get_price_to_beat initFetcherState ("BTC") 5 0 0 (-1)).1.source = "unknown" ∧
    (get_price_to_beat initFetcherState ("BTC") 5 0 0 (-1)).1.price = -1 ∧
    ¬ (get_price_to_beat initFetcherState ("BTC") 5 0 0 (-1)).1.price = 0 := by
  norm_num [get_price_to_beat, normalizeState, initFetcherState, resolve_price,
    List.lookup]

/-- Claim C7, witness: a positive first source short-circuits with its
tag. -/
theorem price_fallback_order_wit :
    (get_price_to_beat initFetcherState ("BTC") 5 7 0 0).1 = resolve_price 7 0 0 ∧
    resolve_price 7 0 0 = { price := 7, source := "polymarket_data_api" } :=
  ⟨(price_fallback_order initFetcherState ("BTC") 5 7 0 0 rfl).1,
    (price_fallback_order initFetcherState ("BTC") 5 7 0 0 rfl).2.1 (by norm_num)⟩

/-- Claim C8: a second `resolve` call in the same wall-clock hour returns
the cached result with the state unchanged and independently of what the
sources would return (no second fetch); and whenever the hour component
differs from the recorded one, the call behaves exactly as if the whole
cache (all assets) were empty — it re-resolves from the sources. -/
theorem price_cache_hour_semantics :
    (∀ (st : FetcherState) (asset : String) (h : ℤ) (f1 f2 f3 g1 g2 g3 : ℚ),
      get_price_to_beat (get_price_to_beat st asset h f1 f2 f3).2 asset h g1 g2 g3 =
        ((get_price_to_beat st asset h f1 f2 f3).1,
          (get_price_to_beat st asset h f1 f2 f3).2)) ∧
    (∀ (st : FetcherState) (asset : String) (h : ℤ) (f1 f2 f3 : ℚ),
      h ≠ st.last_hour →
      get_price_to_beat st asset h f1 f2 f3 =
        get_price_to_beat { cache := [], last_hour := h } asset h f1 f2 f3) := by
  constructor
  · intro st asset h f1 f2 f3 g1 g2 g3
    exact get_price_second_call st asset h f1 f2 f3 g1 g2 g3
  · intro st asset h f1 f2 f3 hne
    unfold get_price_to_beat
    have h1 : normalizeState st h = { cache := [], last_hour := h } := by
      unfold normalizeState
      rw [if_neg hne]
    have h2 : normalizeState { cache := ([] : List (String × PriceResult)), last_hour := h } h =
        { cache := ([] : List (String × PriceResult)), last_hour := h } :=
      normalizeState_of_eq _ _ rfl
    rw [h1, h2]

/-- Claim C8, witness: with the initial state (recorded hour −1) a call at
hour 5 behaves as a fresh resolution over an empty cache. -/
theorem price_cache_hour_semantics_wit :
    get_price_to_beat initFetcherState ("BTC") 5 1 2 3 =
      get_price_to_beat { cache := [], last_hour := 5 } ("BTC") 5 1 2 3 :=
  price_cache_hour_semantics.2 initFetcherState ("BTC") 5 1 2 3 (by
    norm_num [initFetcherState])

/-- Claim C10: when every source fails (each error path returns exactly
0.0), the zero-valued `"unknown"` result is itself stored in the per-asset
cache, and a subsequent call for that asset in the same hour returns it
unchanged without consulting the sources again. -/
theorem failed_resolution_cached_for_hour (st : FetcherState) (asset : String)
    (h : ℤ) (g1 g2 g3 : ℚ)
    (hmiss : (normalizeState st h).cache.lookup asset = none) :
    (get_price_to_beat st asset h 0 0 0).1 = { price := 0, source := "unknown" } ∧
    (get_price_to_beat st asset h 0 0 0).2.cache.lookup asset =
      some (get_price_to_beat st asset h 0 0 0).1 ∧
    get_price_to_beat (get_price_to_beat st asset h 0 0 0).2 asset h g1 g2 g3 =
      ((get_price_to_beat st asset h 0 0 0).1,
        (get_price_to_beat st asset h 0 0 0).2) := by
  refine ⟨?_, ?_, get_price_second_call st asset h 0 0 0 g1 g2 g3⟩
  · unfold get_price_to_beat
    simp only [hmiss]
    unfold resolve_price
    norm_num
  · unfold get_price_to_beat
    simp only [hmiss]
    exact lookup_cons_self asset (resolve_price 0 0 0) (normalizeState st h).cache

/-- Claim C10, witness: the failed resolution at the initial state. -/
theorem failed_resolution_cached_for_hour_wit :
    (get_price_to_beat initFetcherState ("BTC") 5 0 0 0).1 =
      { price := 0, source := "unknown" } :=
  (failed_resolution_cached_for_hour initFetcherState ("BTC") 5 1 2 3 rfl).1

/-!
Claim C9: frame properties of the Polymarket stream.
-/

/-- Storing under one key leaves every other key's lookup unchanged. -/
theorem storeAssoc_lookup_ne {β : Type} (l : List (String × β)) (k t : String)
    (v : β) (h : t ≠ k) : (storeAssoc l k v).lookup t = l.lookup t := by
  induction l with
  | nil =>
    simp only [storeAssoc, List.lookup]
    rw [show (t == k) = false from beq_eq_false_iff_ne.mpr h]
  | cons p rest ih =>
    obtain ⟨pk, pv⟩ := p
    unfold storeAssoc
    by_cases hk : pk = k
    · rw [if_pos hk]
      simp only [List.lookup]
      rw [show (t == k) = false from beq_eq_false_iff_ne.mpr h,
        show (t == pk) = false from beq_eq_false_iff_ne.mpr (hk ▸ h)]
    · rw [if_neg hk]
      simp only [List.lookup]
      cases hpt : (t == pk) with
      | true => rfl
      | false => exact ih

/-- Storing under a key makes that key's lookup the stored value. -/
theorem storeAssoc_lookup_self {β : Type} (l : List (String × β)) (k : String)
    (v : β) : (storeAssoc l k v).lookup k = some v := by
  induction l with
  | nil => simp [storeAssoc, List.lookup]
  | cons p rest ih =>
    obtain ⟨pk, pv⟩ := p
    unfold storeAssoc
    by_cases hk : pk = k
    · rw [if_pos hk]
      simp [List.lookup]
    · rw [if_neg hk]
      simp only [List.lookup]
      rw [show (k == pk) = false from beq_eq_false_iff_ne.mpr (fun e => hk e.symm)]
      exact ih

/-- A price-change entry not naming a token leaves that token's quote. -/
theorem applyChange_lookup_ne (ps : List (String × Quote)) (ch : PriceChange)
    (t : String) (h : ∀ t2, ch.asset_id = some t2 → t ≠ t2) :
    (applyChange ps ch).lookup t = ps.lookup t := by
  cases haid : ch.asset_id with
  | none =>
    unfold applyChange
    rw [haid]
  | some t2 =>
    unfold applyChange
    rw [haid]
    show (if t2 = "" then ps
      else storeAssoc ps t2
        { ask := ch.best_ask, bid := ch.best_bid, size := ch.size }).lookup t =
      ps.lookup t
    by_cases ht2 : t2 = ""
    · rw [if_pos ht2]
    · rw [if_neg ht2]
      exact storeAssoc_lookup_ne _ _ _ _ (h t2 haid)

/-- Folding a list of price changes over the quote table leaves every token
not named in the list unchanged. -/
theorem foldl_applyChange_lookup_ne (chs : List PriceChange)
    (ps : List (String × Quote)) (t : String)
    (h : t ∉ chs.filterMap (fun c => c.asset_id)) :
    (chs.foldl applyChange ps).lookup t = ps.lookup t := by
  induction chs generalizing ps with
  | nil => rfl
  | cons ch rest ih =>
    cases haid : ch.asset_id with
    | none =>
      have ha : applyChange ps ch = ps := by
        unfold applyChange
        rw [haid]
      rw [List.foldl_cons, ha]
      apply ih
      simpa [List.filterMap_cons, haid] using h
    | some t2 =>
      have hmem : ¬ (t = t2 ∨ t ∈ rest.filterMap (fun c => c.asset_id)) := by
        simpa [List.filterMap_cons, haid, List.mem_cons] using h
      push_neg at hmem
      rw [List.foldl_cons, ih _ hmem.2]
      exact applyChange_lookup_ne ps ch t (fun t3 heq => by
        rw [haid] at heq
        cases heq
        exact hmem.1)

/-- `addTokenStep` never touches the quote table. -/
theorem addTokenStep_prices (asset_code : String) (outcomes : List String)
    (s : PolyStreamState) (it : ℕ × String) :
    (addTokenStep asset_code outcomes s it).prices = s.prices := by
  unfold addTokenStep
  cases outcomes.get? it.1 <;> rfl

/-- `addMarketTokens` never touches the quote table. -/
theorem addMarketTokens_prices (asset_code : String) (s : PolyStreamState)
    (m : List String × List String) :
    (addMarketTokens asset_code s m).prices = s.prices := by
  unfold addMarketTokens
  generalize m.1.enum = its
  induction its generalizing s with
  | nil => rfl
  | cons it rest ih =>
    rw [List.foldl_cons, ih, addTokenStep_prices]

/-- Folding `addMarketTokens` never touches the quote table. -/
theorem foldl_addMarketTokens_prices (asset_code : String)
    (mkts : List (List String × List String)) (st : PolyStreamState) :
    (mkts.foldl (addMarketTokens asset_code) st).prices = st.prices := by
  induction mkts generalizing st with
  | nil => rfl
  | cons m rest ih =>
    rw [List.foldl_cons, ih, addMarketTokens_prices]

/-- `add_market` never touches the quote table. -/
theorem add_market_prices (st : PolyStreamState) (asset_code slug : String)
    (mkts : List (List String × List String)) :
    (add_market st asset_code slug mkts).prices = st.prices := by
  unfold add_market
  split
  · rfl
  · show (mkts.foldl (addMarketTokens asset_code) st).prices = st.prices
    exact foldl_addMarketTokens_prices asset_code mkts st

/-- Claim C9: handling an incoming message changes only the quotes of the
tokens it names (a named token's quote becomes exactly the event's
ask/bid/size); the reconnect step re-subscribes with the full current
token set and leaves every stored quote unchanged; `add_market` (the
origin of token-set changes) also leaves every stored quote unchanged. -/
theorem poly_stream_frame_properties (st : PolyStreamState)
    (msg : PolyMessage) (t : String) (hnt : t ∉ touchedTokens msg) :
    ((handleMessage st msg).prices.lookup t = st.prices.lookup t) ∧
    (∀ (ch : PriceChange) (t2 : String), ch.asset_id = some t2 → t2 ≠ "" →
      (handleMessage st (PolyMessage.price_change [ch])).prices.lookup t2 =
        some { ask := ch.best_ask, bid := ch.best_bid, size := ch.size }) ∧
    ((reconnect st).prices = st.prices) ∧
    ((reconnect st).current_subscribed_tokens = st.token_ids) ∧
    (∀ (asset_code slug : String) (mkts : List (List String × List String)),
      (add_market st asset_code slug mkts).prices = st.prices) := by
  refine ⟨?_, ?_, rfl, rfl, ?_⟩
  · cases msg with
    | price_change chs =>
      exact foldl_applyChange_lookup_ne chs st.prices t hnt
    | other aid price size =>
      cases aid with
      | none => rfl
      | some t2 =>
        cases price with
        | none => rfl
        | some p =>
          have ht : t ≠ t2 := by
            simpa [touchedTokens] using hnt
          show (if t2 = "" ∨ p = 0 then st
            else { st with
              prices := storeAssoc st.prices t2
                { ask := p, bid := p, size := size } }).prices.lookup t =
            st.prices.lookup t
          by_cases hz : t2 = "" ∨ p = 0
          · rw [if_pos hz]
          · rw [if_neg hz]
            exact storeAssoc_lookup_ne _ _ _ _ ht
  · intro ch t2 haid ht2
    show (applyChange st.prices ch).lookup t2 =
      some { ask := ch.best_ask, bid := ch.best_bid, size := ch.size }
    unfold applyChange
    rw [haid]
    show (if t2 = "" then st.prices
      else storeAssoc st.prices t2
        { ask := ch.best_ask, bid := ch.best_bid, size := ch.size }).lookup t2 =
      some { ask := ch.best_ask, bid := ch.best_bid, size := ch.size }
    rw [if_neg ht2]
    exact storeAssoc_lookup_self _ _ _
  · intro asset_code slug mkts
    exact add_market_prices st asset_code slug mkts

/-- A concrete stream state holding a quote for token `T1`. -/
def stW : PolyStreamState :=
  { prices := [(("T1"), { ask := 1/2, bid := 2/5, size := 3 })], token_ids := [("T1"), ("T2")], current_subscribed_tokens := [("T1")], token_to_outcome := [], monitored_slugs := [] }

/-- A price-change event touching only token `T2`. -/
def msgW : PolyMessage :=
  PolyMessage.price_change
    [{ asset_id := some ("T2"), best_ask := 3/5, best_bid := 1/2, size := 7 }]

/-- Claim C9, witness: handling a `T2` update leaves `T1`'s stored quote
unchanged. -/
theorem poly_stream_frame_properties_wit :
    (handleMessage stW msgW).prices.lookup ("T1") = stW.prices.lookup ("T1") :=
  (poly_stream_frame_properties stW msgW ("T1") (by
    simp [msgW, touchedTokens])).1
